import Mathlib

/-!
Verification of the PMail IMAP SEARCH/FETCH core.

Shallow embedding of the repository's Go sources:
  * `server/services/list/imap_search.go` (criteria evaluator),
  * the IMAP session `Search` handler,
  * the IMAP session `Fetch` writer (`write`, envelope and body-structure
    synthesis, header-section synthesis).

Modelling conventions:
  * Go `string`/`[]byte` values are `List Char` (`GoStr`); `strings.ToLower`,
    `strings.Contains`, `strings.LastIndex`, `strings.IndexByte` and
    `strings.SplitN` are re-implemented on `List Char`.
  * Go `time.Time` values are modelled as an integer count of seconds in a
    single fixed location; `t.IsZero()` becomes `t = 0`, `a.Before(b)` becomes
    `a < b`, and `time.Date(Y, M, D, 0,0,0,0, loc)` (truncation to midnight)
    becomes flooring to a multiple of 86400.
  * Go machine integers are `Int`; `uint32` conversions take `% 2^32`.
  * The database (`db.Instance ... Find`) is an oracle `DB` passed explicitly;
    a failed lookup is `Except.error`.
  * The mailbox snapshot returned by `GetUEListByUID` is the explicit `store`
    parameter; recursive sub-searches re-query the same snapshot, matching the
    stable-snapshot assumption of the spec.
-/

/-- Go strings / byte slices, modelled as lists of characters. -/
abbrev GoStr := List Char

/-- Models `strings.ToLower` (character-wise lowering; faithful on ASCII). -/
def goToLower (s : GoStr) : GoStr := s.map Char.toLower

/-- Does `s` start with `pat`?  Helper for `goContains`. -/
def goStartsWith : GoStr → GoStr → Bool
  | [], _ => true
  | _ :: _, [] => false
  | p :: ps, x :: xs => p == x && goStartsWith ps xs

/-- Models `strings.Contains s sub`. -/
def goContains : GoStr → GoStr → Bool
  | [], sub => sub.isEmpty
  | c :: rest, sub => goStartsWith sub (c :: rest) || goContains rest sub

/-- Models `strings.LastIndex s (string c)` for a one-character needle
(`-1` when absent, as in Go). -/
def goLastIndexChar : GoStr → Char → Int
  | [], _ => -1
  | c :: rest, ch =>
    let r := goLastIndexChar rest ch
    if r ≥ 0 then r + 1 else if c == ch then 0 else -1

/-- Models `strings.IndexByte s c` (`-1` when absent, as in Go). -/
def goIndexChar : GoStr → Char → Int
  | [], _ => -1
  | c :: rest, ch =>
    if c == ch then 0
    else
      let r := goIndexChar rest ch
      if r ≥ 0 then r + 1 else -1

/-- Split off the text before the first occurrence of `sep`, together with the
remainder after it; `none` when `sep` does not occur.  Helper for `goSplitN3`. -/
def splitOnce (sep : GoStr) : GoStr → Option (GoStr × GoStr)
  | [] => none
  | c :: rest =>
    if goStartsWith sep (c :: rest) then some ([], (c :: rest).drop sep.length)
    else
      match splitOnce sep rest with
      | none => none
      | some (pre, post) => some (c :: pre, post)

/-- Models `strings.SplitN s sep 3` for a non-empty separator: at most three
chunks, the last one unsplit. -/
def goSplitN3 (s sep : GoStr) : List GoStr :=
  match splitOnce sep s with
  | none => [s]
  | some (a, rest) =>
    match splitOnce sep rest with
    | none => [a, rest]
    | some (b, rest2) => [a, b, rest2]

/-- Decimal rendering of an integer, standing in for Go's `%d` formatting. -/
def intRender (i : Int) : GoStr :=
  if i < 0 then '-' :: Nat.toDigits 10 i.natAbs else Nat.toDigits 10 i.natAbs

/-- The CRLF line terminator written throughout the FETCH writer. -/
def crlf : GoStr := ['\r', '\n']

/-- Seconds per calendar day, the granularity `truncateToDate` floors to. -/
def secondsPerDay : Int := 86400

/-- Models `imap_search.go` `truncateToDate`: `time.Date(Y, M, D, 0,0,0,0, loc)`
drops the time-of-day, i.e. floors the instant to the start of its calendar
day. -/
def truncateToDate (t : Int) : Int := (Int.ediv t secondsPerDay) * secondsPerDay

/-- Models `time.Time.IsZero`. -/
def isZeroTime (t : Int) : Bool := t == 0

/-- Models `go-imap` flags as far as `hasFlag` distinguishes them. -/
inductive GoFlag where
  | seen
  | answered
  | flagged
  | deleted
  | draft
  | junk
  | other (name : GoStr)
  deriving DecidableEq, Repr

/-- One `imap.UIDRange` / `imap.SeqRange`. -/
structure NumRange where
  start : Int
  stop : Int
  deriving DecidableEq, Repr

/-- An `imap.UIDSet` / `imap.SeqSet` (a list of ranges). -/
abbrev NumSet := List NumRange

/-- Models `go-imap`'s `UIDSet.Contains` / `SeqSet.Contains` for ordinary
(star-free) range sets. -/
def numSetContains (s : NumSet) (x : Int) : Bool :=
  s.any (fun r => decide (r.start ≤ x) && decide (x ≤ r.stop))

/-- Models `cast.ToUint32` / `uint32(...)` / `imap.UID(...)` conversions on a
nonnegative-or-wrapped Go integer. -/
def toUint32 (i : Int) : Int := i % 4294967296

/-- One entry of `response.UserEmailUIDData` as read by the search code:
`ID` (the UID), `SerialNumber` (the sequence number), `EmailID`, `IsRead`,
`Status`. -/
structure UE where
  id : Int
  serialNumber : Int
  emailID : Int
  isRead : Int
  status : Int
  deriving DecidableEq, Repr

/-- The fields of `models.Email` read by `matchesEmailCriteria` (the `models`
package itself is an external collaborator; this mirrors the columns used). -/
structure Email where
  id : Int
  createTime : Int
  sendDate : Int
  size : Int
  subject : GoStr
  fromAddress : GoStr
  fromName : GoStr
  toAddr : GoStr  -- the Go field is `To`; `to` is reserved in Lean
  cc : GoStr
  bcc : GoStr
  replyTo : GoStr
  sender : GoStr
  textValid : Bool
  textString : GoStr
  htmlValid : Bool
  htmlString : GoStr

/-- The storage oracle behind
`db.Instance.Table("email").In("id", emailIDs).Find(&emails)`: given the
requested ids it either fails or returns email rows. -/
structure DB where
  fetchEmails : List Int → Except String (List Email)

/-- An `imap.SearchCriteriaHeaderField` key/value pair. -/
structure HeaderField where
  key : GoStr
  value : GoStr
  deriving DecidableEq, Repr

/-- The non-recursive fields of `imap.SearchCriteria` as read by
`SearchEmails`: `UID`, `SeqNum`, `Since`, `Before`, `SentSince`, `SentBefore`,
`Header`, `Body`, `Text`, `Flag`, `NotFlag`, `Larger`, `Smaller`. -/
structure FlatCriteria where
  uid : List NumSet
  seqNum : List NumSet
  since : Int
  before : Int
  sentSince : Int
  sentBefore : Int
  header : List HeaderField
  body : List GoStr
  text : List GoStr
  flag : List GoFlag
  notFlag : List GoFlag
  larger : Int
  smaller : Int

mutual
/-- An `imap.SearchCriteria` value: the flat fields together with the `Not`
child list and the `Or` pair list. -/
inductive SearchCriteria where
  | mk (flat : FlatCriteria) (nots : SCList) (ors : SCPairList)

/-- The `Not []imap.SearchCriteria` slice. -/
inductive SCList where
  | nil
  | cons (c : SearchCriteria) (rest : SCList)

/-- The `Or [][2]imap.SearchCriteria` slice. -/
inductive SCPairList where
  | nil
  | cons (a b : SearchCriteria) (rest : SCPairList)
end

/-- Field accessor for the flat criteria fields. -/
def SearchCriteria.flat : SearchCriteria → FlatCriteria
  | .mk f _ _ => f

/-- Field accessor for the `Not` children. -/
def SearchCriteria.nots : SearchCriteria → SCList
  | .mk _ n _ => n

/-- Field accessor for the `Or` pairs. -/
def SearchCriteria.ors : SearchCriteria → SCPairList
  | .mk _ _ o => o

/-- Length of a `Not` child list (Go `len(criteria.Not)`). -/
def SCList.length : SCList → Nat
  | .nil => 0
  | .cons _ rest => 1 + rest.length

/-- Length of an `Or` pair list (Go `len(criteria.Or)`). -/
def SCPairList.length : SCPairList → Nat
  | .nil => 0
  | .cons _ _ rest => 1 + rest.length

/-- The `Or` pair list as an ordinary list of pairs (for stating theorems). -/
def SCPairList.toList : SCPairList → List (SearchCriteria × SearchCriteria)
  | .nil => []
  | .cons a b rest => (a, b) :: rest.toList

/-- Models `isEmptyCriteria` (imap_search.go lines 119-135). -/
def isEmptyCriteria (c : SearchCriteria) : Bool :=
  c.flat.uid.length == 0 &&
  c.flat.seqNum.length == 0 &&
  isZeroTime c.flat.since &&
  isZeroTime c.flat.before &&
  isZeroTime c.flat.sentSince &&
  isZeroTime c.flat.sentBefore &&
  c.flat.header.length == 0 &&
  c.flat.body.length == 0 &&
  c.flat.text.length == 0 &&
  c.flat.flag.length == 0 &&
  c.flat.notFlag.length == 0 &&
  c.flat.larger == 0 &&
  c.flat.smaller == 0 &&
  c.nots.length == 0 &&
  c.ors.length == 0

/-- Models `needsEmailData` (imap_search.go lines 138-148). -/
def needsEmailData (f : FlatCriteria) : Bool :=
  !isZeroTime f.since ||
  !isZeroTime f.before ||
  !isZeroTime f.sentSince ||
  !isZeroTime f.sentBefore ||
  f.header.length > 0 ||
  f.body.length > 0 ||
  f.text.length > 0 ||
  decide (f.larger > 0) ||
  decide (f.smaller > 0)

/-- Models `filterByUIDSets` (imap_search.go lines 151-162). -/
def filterByUIDSets (list : List UE) (uidSets : List NumSet) : List UE :=
  list.filter (fun item => uidSets.any (fun s => numSetContains s (toUint32 item.id)))

/-- Models `filterBySeqNumSets` (imap_search.go lines 165-176). -/
def filterBySeqNumSets (list : List UE) (seqSets : List NumSet) : List UE :=
  list.filter (fun item => seqSets.any (fun s => numSetContains s (toUint32 item.serialNumber)))

/-- Models `hasFlag` (imap_search.go lines 210-226). -/
def hasFlag (item : UE) (flag : GoFlag) : Bool :=
  match flag with
  | .seen => item.isRead == 1
  | .deleted => item.status == 3
  | .draft => item.status == 4
  | .junk => item.status == 5
  | .answered => false
  | .flagged => false
  | .other _ => false

/-- Models `filterByFlags` (imap_search.go lines 179-207). -/
def filterByFlags (list : List UE) (flags notFlags : List GoFlag) : List UE :=
  list.filter (fun item =>
    flags.all (fun f => hasFlag item f) && notFlags.all (fun f => !hasFlag item f))

/-- Models `matchesHeader` (imap_search.go lines 340-364). -/
def matchesHeader (e : Email) (key value : GoStr) : Bool :=
  let k := goToLower key
  let v := goToLower value
  if k == "subject".data then goContains (goToLower e.subject) v
  else if k == "from".data then
    goContains (goToLower e.fromAddress) v || goContains (goToLower e.fromName) v
  else if k == "to".data then goContains (goToLower e.toAddr) v
  else if k == "cc".data then goContains (goToLower e.cc) v
  else if k == "bcc".data then goContains (goToLower e.bcc) v
  else if k == "reply-to".data then goContains (goToLower e.replyTo) v
  else if k == "sender".data then goContains (goToLower e.sender) v
  else false

/-- Models `matchesBody` (imap_search.go lines 367-381). -/
def matchesBody (e : Email) (pat : GoStr) : Bool :=
  let p := goToLower pat
  (e.textValid && goContains (goToLower e.textString) p) ||
  (e.htmlValid && goContains (goToLower e.htmlString) p)

/-- Models `matchesText` (imap_search.go lines 384-409). -/
def matchesText (e : Email) (pat : GoStr) : Bool :=
  let p := goToLower pat
  goContains (goToLower e.subject) p ||
  goContains (goToLower e.fromAddress) p ||
  goContains (goToLower e.fromName) p ||
  goContains (goToLower e.toAddr) p ||
  goContains (goToLower e.cc) p ||
  goContains (goToLower e.bcc) p ||
  matchesBody e p

/-- Models `matchesEmailCriteria` (imap_search.go lines 273-332); only the flat
fields of the criteria are read there. -/
def matchesEmailCriteria (e : Email) (f : FlatCriteria) : Bool :=
  !(!isZeroTime f.since && decide (e.createTime < truncateToDate f.since)) &&
  !(!isZeroTime f.before && !decide (e.createTime < truncateToDate f.before)) &&
  !(!isZeroTime f.sentSince && decide (e.sendDate < truncateToDate f.sentSince)) &&
  !(!isZeroTime f.sentBefore && !decide (e.sendDate < truncateToDate f.sentBefore)) &&
  !(decide (f.larger > 0) && decide (e.size ≤ f.larger)) &&
  !(decide (f.smaller > 0) && decide (e.size ≥ f.smaller)) &&
  f.header.all (fun hf => matchesHeader e hf.key hf.value) &&
  f.body.all (fun p => matchesBody e p) &&
  f.text.all (fun p => matchesText e p)

/-- Models `filterWithEmailData` (imap_search.go lines 229-270): fetch the
candidate rows' emails; on a lookup failure log and return the list
unchanged; otherwise keep the candidates whose email row was found and
matches. -/
def filterWithEmailData (db : DB) (list : List UE) (f : FlatCriteria) : List UE :=
  if list.length = 0 then list
  else
    match db.fetchEmails (list.map (·.emailID)) with
    | .error _ => list
    | .ok emails =>
      let emailMap : Int → Option Email := fun i => emails.reverse.find? (fun e => e.id == i)
      list.filter (fun item =>
        match emailMap item.emailID with
        | none => false
        | some e => matchesEmailCriteria e f)

/-- The UID-set pass of `SearchEmails` (imap_search.go lines 84-86), applied
only when UID sets are present. -/
def uidPass (flat : FlatCriteria) (l : List UE) : List UE :=
  if flat.uid.length > 0 then filterByUIDSets l flat.uid else l

/-- The sequence-number pass of `SearchEmails` (imap_search.go lines 89-91). -/
def seqPass (flat : FlatCriteria) (l : List UE) : List UE :=
  if flat.seqNum.length > 0 then filterBySeqNumSets l flat.seqNum else l

/-- The email-data pass of `SearchEmails` (imap_search.go lines 94-96). -/
def dataPass (db : DB) (flat : FlatCriteria) (l : List UE) : List UE :=
  if needsEmailData flat then filterWithEmailData db l flat else l

/-- The flag pass of `SearchEmails` (imap_search.go lines 99-101). -/
def flagPass (flat : FlatCriteria) (l : List UE) : List UE :=
  if flat.flag.length > 0 || flat.notFlag.length > 0 then
    filterByFlags l flat.flag flat.notFlag
  else l

/-- The four non-recursive narrowing passes of `SearchEmails`
(imap_search.go lines 83-101), in code order. -/
def flatPasses (db : DB) (store : List UE) (flat : FlatCriteria) : List UE :=
  flagPass flat (dataPass db flat (seqPass flat (uidPass flat store)))

mutual
/-- Models the body of `SearchEmails` (imap_search.go lines 63-116) for a
non-nil, non-empty criteria on the snapshot `store`: the pipeline of narrowing
passes (UID sets, sequence sets, email-data predicates, flags, NOT children,
OR pairs).  The recursive sub-searches of the NOT and OR passes re-enter
`SearchEmails` on the same snapshot; its leading length-zero and
`isEmptyCriteria` checks are inlined at those call sites. -/
def searchSome (db : DB) (store : List UE) : SearchCriteria → List UE
  | .mk flat nots ors =>
    let l5 := applyNotListGo db store (flatPasses db store flat) nots
    match ors with
    | .nil => l5
    | .cons a b rest =>
      let resultUIDs := collectOrUIDs db store (l5.map (·.id)) (SCPairList.cons a b rest)
      l5.filter (fun item => resultUIDs.contains item.id)

/-- Models the NOT pass of `SearchEmails` (imap_search.go lines 104-108,
412-431): for each NOT child, evaluate it against the full snapshot and drop
every surviving candidate whose id is among its matches.  The recursive
`SearchEmails` call of `applyNotCriteria` is inlined. -/
def applyNotListGo (db : DB) (store : List UE) (list : List UE) : SCList → List UE
  | .nil => list
  | .cons c rest =>
    let matched :=
      if store.length = 0 then store
      else if isEmptyCriteria c then store
      else searchSome db store c
    let matchedUIDs := matched.map (·.id)
    applyNotListGo db store (list.filter (fun item => !matchedUIDs.contains item.id)) rest

/-- Models the resultUIDs accumulation of `applyOrCriteria` (imap_search.go
lines 445-464): for each OR pair, both sides are evaluated against the full
snapshot and every match that is among the current candidates is added to one
shared result set (here: collected as a list, queried only for membership).
The recursive `SearchEmails` calls are inlined. -/
def collectOrUIDs (db : DB) (store : List UE) (currentUIDs : List Int) : SCPairList → List Int
  | .nil => []
  | .cons a b rest =>
    let m1 :=
      if store.length = 0 then store
      else if isEmptyCriteria a then store
      else searchSome db store a
    let ids1 := (m1.map (·.id)).filter (fun i => currentUIDs.contains i)
    let m2 :=
      if store.length = 0 then store
      else if isEmptyCriteria b then store
      else searchSome db store b
    let ids2 := (m2.map (·.id)).filter (fun i => currentUIDs.contains i)
    ids1 ++ ids2 ++ collectOrUIDs db store currentUIDs rest
end

/-- Models `SearchEmails` (imap_search.go lines 63-116): fetch the snapshot
(here: the `store` argument), return it unchanged when it is empty or when the
criteria is nil or empty, and otherwise run the filter pipeline.  The second
component is the returned `error`, which is `nil` on every path. -/
def SearchEmails (db : DB) (store : List UE) (criteria : Option SearchCriteria) :
    List UE × Option String :=
  if store.length = 0 then (store, none)
  else
    match criteria with
    | none => (store, none)
    | some c => if isEmptyCriteria c then (store, none) else (searchSome db store c, none)

/-- Models `applyNotCriteria` (imap_search.go lines 412-431) as a standalone
function (the recursive search, then the id-set subtraction). -/
def applyNotCriteria (db : DB) (store : List UE) (list : List UE) (c : SearchCriteria) :
    List UE :=
  let matched := (SearchEmails db store (some c)).1
  let matchedUIDs := matched.map (·.id)
  list.filter (fun item => !matchedUIDs.contains item.id)

/-- Models `applyOrCriteria` (imap_search.go lines 434-475) as a standalone
function: with no pairs return the list unchanged; otherwise intersect the
accumulated per-pair matches with the current candidates, preserving order. -/
def applyOrCriteria (db : DB) (store : List UE) (list : List UE) (ors : SCPairList) :
    List UE :=
  match ors with
  | .nil => list
  | .cons a b rest =>
    let resultUIDs := collectOrUIDs db store (list.map (·.id)) (SCPairList.cons a b rest)
    list.filter (fun item => resultUIDs.contains item.id)

/-- The unique-id list of the messages matching a criteria on a snapshot. -/
def matchIDs (db : DB) (store : List UE) (c : SearchCriteria) : List Int :=
  ((SearchEmails db store (some c)).1).map (·.id)

/-- A `parsemail.User` (name and address). -/
structure PUser where
  name : GoStr
  emailAddress : GoStr

/-- One attachment of a parsed message (filename, content type, raw bytes). -/
structure Attachment where
  filename : GoStr
  contentType : GoStr
  content : GoStr

/-- The view of a `parsemail.Email` used by the FETCH writer.  The `parsemail`
package is an external collaborator; its builder methods are carried as data:
`toStr`, `ccStr`, `bccStr` are the results of `BuildTo2String` /
`BuildCc2String` / `BuildBcc2String`, `raw` is `BuildBytes(ctx, false)` and
`buildPart` is `BuildPart(ctx, path)` (`none` = Go `nil`). -/
structure ParsedEmail where
  sender : Option PUser
  replyTo : List PUser
  toUsers : List PUser
  ccUsers : List PUser
  bccUsers : List PUser
  toStr : GoStr
  ccStr : GoStr
  bccStr : GoStr
  text : GoStr
  html : GoStr
  attachments : List Attachment
  raw : GoStr
  buildPart : List Int → Option GoStr

/-- The fields of `response.EmailResponseData` read by the FETCH writer. -/
structure EmailView where
  id : Int
  ueId : Int
  serialNumber : Int
  isRead : Int
  createTime : Int
  subject : GoStr
  fromName : GoStr
  fromAddress : GoStr

/-- An `imap.Address` (display name, local part, host). -/
structure Address where
  name : GoStr
  mailbox : GoStr
  host : GoStr

/-- An `imap.Envelope` as populated by `buildEnvelope`.  The Go field `From`
is `fromList` here (`from` is reserved in Lean). -/
structure Envelope where
  date : Int
  subject : GoStr
  fromList : List Address
  sender : List Address
  replyTo : List Address
  toList : List Address
  cc : List Address
  bcc : List Address
  messageID : GoStr

/-- Models `userToAddress`: split the address on its last `@` into local part
and host. -/
def userToAddress (u : PUser) : Address :=
  let at_ := goLastIndexChar u.emailAddress '@'
  if at_ ≥ 0 then
    { name := u.name
      mailbox := u.emailAddress.take at_.toNat
      host := u.emailAddress.drop (at_.toNat + 1) }
  else
    { name := u.name, mailbox := u.emailAddress, host := [] }

/-- Models `usersToAddresses`: keep the users with a non-empty address
(the Go nil-pointer check has no counterpart: list entries are values here). -/
def usersToAddresses (users : List PUser) : List Address :=
  (users.filter (fun u => !u.emailAddress.isEmpty)).map userToAddress

/-- Models `buildEnvelope`: from/sender/reply-to defaulting and the
synthesized `<id@domain>` message id. -/
def buildEnvelope (email : EmailView) (tra : ParsedEmail) (domain : GoStr) : Envelope :=
  let fromList : List Address :=
    if email.fromAddress.isEmpty then []
    else
      let at_ := goLastIndexChar email.fromAddress '@'
      if at_ ≥ 0 then
        [{ name := email.fromName
           mailbox := email.fromAddress.take at_.toNat
           host := email.fromAddress.drop (at_.toNat + 1) }]
      else
        [{ name := email.fromName, mailbox := email.fromAddress, host := [] }]
  let senderList : List Address :=
    match tra.sender with
    | some u => if u.emailAddress.isEmpty then fromList else [userToAddress u]
    | none => fromList
  let replyToList : List Address :=
    if tra.replyTo.isEmpty then fromList else usersToAddresses tra.replyTo
  { date := email.createTime
    subject := email.subject
    fromList := fromList
    sender := senderList
    replyTo := replyToList
    toList := usersToAddresses tra.toUsers
    cc := usersToAddresses tra.ccUsers
    bcc := usersToAddresses tra.bccUsers
    messageID := ['<'] ++ intRender email.id ++ ['@'] ++ domain ++ ['>'] }

/-- An IMAP body structure: either a single part (type, subtype, parameters,
content id, encoding, size, text line count, attachment disposition filename)
or a multipart with a subtype, children and an extended-data flag. -/
inductive BodyStructure where
  | single (typ subtyp : GoStr) (params : List (GoStr × GoStr)) (contentId : GoStr)
      (encoding : GoStr) (size : Nat) (numLines : Option Int)
      (dispositionFilename : Option GoStr)
  | multi (subtyp : GoStr) (children : List BodyStructure) (extended : Bool)

/-- Models `bsTextPlain`. -/
def bsTextPlain (size : Nat) (numLines : Int) : BodyStructure :=
  .single ("text".data) ("plain".data) [("charset".data, "utf-8".data)] []
    ("base64".data) size (some numLines) none

/-- Models `bsTextHTML`. -/
def bsTextHTML (size : Nat) (numLines : Int) : BodyStructure :=
  .single ("text".data) ("html".data) [("charset".data, "utf-8".data)] []
    ("base64".data) size (some numLines) none

/-- Models `bsAttachment`: split the MIME string on its first `/` when that
slash is at a positive index, defaulting to application/octet-stream. -/
def bsAttachment (filename mimeType : GoStr) (size : Nat) (encoding : GoStr) :
    BodyStructure :=
  let slash := goIndexChar mimeType '/'
  let mt := if slash > 0 then mimeType.take slash.toNat else ("application".data)
  let st := if slash > 0 then mimeType.drop (slash.toNat + 1) else ("octet-stream".data)
  .single mt st [("name".data, filename)] [] encoding size none (some filename)

/-- Models `bsAlternative`: text child first, then HTML; when both are absent
an empty text/plain placeholder keeps the multipart non-empty. -/
def bsAlternative (text html : Option BodyStructure) : BodyStructure :=
  let children := (match text with | some t => [t] | none => []) ++
                  (match html with | some h => [h] | none => [])
  let children := if children.isEmpty then [bsTextPlain 0 0] else children
  .multi ("alternative".data) children true

/-- Models `bsMixedWithAttachments`: the alternative part followed by every
attachment, under a mixed multipart. -/
def bsMixedWithAttachments (alt : BodyStructure) (extend : Bool)
    (atts : List BodyStructure) : BodyStructure :=
  .multi ("mixed".data) (alt :: atts) extend

/-- The text part built by `write` for a message (present when the plain-text
body is non-empty; line count = newline count + 1). -/
def textPartOf (tra : ParsedEmail) : Option BodyStructure :=
  if tra.text.length > 0 then
    some (bsTextPlain tra.text.length ((tra.text.count '\n' : Int) + 1))
  else none

/-- The HTML part built by `write` (present when the HTML body is non-empty). -/
def htmlPartOf (tra : ParsedEmail) : Option BodyStructure :=
  if tra.html.length > 0 then
    some (bsTextHTML tra.html.length ((tra.html.count '\n' : Int) + 1))
  else none

/-- The alternative part `write` builds from the text and HTML bodies. -/
def altPartOf (tra : ParsedEmail) : BodyStructure :=
  bsAlternative (textPartOf tra) (htmlPartOf tra)

/-- Models the body-structure synthesis of `write` (part_001 lines 234-253):
the alternative part plus one part per attachment, wrapped by
`bsMixedWithAttachments`. -/
def buildBodyStructure (tra : ParsedEmail) (extended : Bool) : BodyStructure :=
  bsMixedWithAttachments (altPartOf tra) extended
    (tra.attachments.map (fun a =>
      bsAttachment a.filename a.contentType a.content.length ("base64".data)))

/-- The subtype at the root of a body structure. -/
def topSubtype : BodyStructure → GoStr
  | .single _ st _ _ _ _ _ _ => st
  | .multi st _ _ => st

/-- An `imap.PartSpecifier`. -/
inductive PartSpecifier where
  | noneSpec
  | headerSpec
  | mimeSpec
  | textSpec
  deriving DecidableEq, Repr

/-- An `imap.FetchItemBodySection` as read by `write`: the peek flag, the
requested header field names, the part specifier and the MIME part path. -/
structure BodySectionReq where
  peek : Bool
  headerFields : List GoStr
  specifier : PartSpecifier
  part : List Int

/-- The `imap.FetchOptions` read by `write` (`bodyStructure` carries the
`Extended` flag of a non-nil `BodyStructureOptions`). -/
structure FetchOptions where
  uid : Bool
  envelope : Bool
  bodyStructure : Option Bool
  rfc822Size : Bool
  flags : Bool
  internalDate : Bool
  bodySection : List BodySectionReq

/-- Stand-in for `mime.QEncoding.Encode`, which leaves printable-ASCII input
unchanged (the encoded form of non-ASCII input is an external library detail
no claim depends on). -/
def qEncode (s : GoStr) : GoStr := s

/-- Stand-in for `time.Time.Format(time.RFC1123Z)`: an injective rendering of
the instant (the exact calendar text is an external library detail no claim
depends on). -/
def formatRFC1123Z (t : Int) : GoStr := intRender t

/-- The default header-field list `write` substitutes when the client asked
for a header section without naming fields (part_001 lines 279-284). -/
def defaultHeaderFields : List GoStr :=
  ["date".data, "subject".data, "from".data, "to".data, "cc".data,
   "message-id".data, "content-type".data]

/-- Models the field resolution of the header branch: an absent/empty field
list means the default list. -/
def resolveHeaderFields (requested : List GoStr) : List GoStr :=
  if requested.isEmpty then defaultHeaderFields else requested

/-- Models one iteration of the header-synthesis switch (part_001 lines
286-338): the lines written for one requested field, tagged with the
lower-cased field key of the switch case that produced them. -/
def headerFieldLines (email : EmailView) (tra : ParsedEmail)
    (emailContent domain : GoStr) (field : GoStr) : List (GoStr × GoStr) :=
  let fieldLower := goToLower field
  if fieldLower == "date".data then
    [(fieldLower, "Date: ".data ++ formatRFC1123Z email.createTime ++ crlf)]
  else if fieldLower == "subject".data then
    [(fieldLower, "Subject: ".data ++ qEncode email.subject ++ crlf)]
  else if fieldLower == "from".data then
    if !email.fromName.isEmpty then
      [(fieldLower, "From: ".data ++ qEncode email.fromName ++ " <".data ++
        email.fromAddress ++ ">".data ++ crlf)]
    else
      [(fieldLower, "From: ".data ++ email.fromAddress ++ crlf)]
  else if fieldLower == "sender".data then
    if !email.fromName.isEmpty then
      [(fieldLower, "Sender: ".data ++ qEncode email.fromName ++ " <".data ++
        email.fromAddress ++ ">".data ++ crlf)]
    else
      [(fieldLower, "Sender: ".data ++ email.fromAddress ++ crlf)]
  else if fieldLower == "reply-to".data then
    match tra.replyTo with
    | [] => []
    | u :: _ =>
      if u.emailAddress.isEmpty then []
      else if !u.name.isEmpty then
        [(fieldLower, "Reply-To: ".data ++ qEncode u.name ++ " <".data ++
          u.emailAddress ++ ">".data ++ crlf)]
      else
        [(fieldLower, "Reply-To: ".data ++ u.emailAddress ++ crlf)]
  else if fieldLower == "to".data then
    if !tra.toStr.isEmpty then [(fieldLower, "To: ".data ++ tra.toStr ++ crlf)] else []
  else if fieldLower == "cc".data then
    if !tra.ccUsers.isEmpty then [(fieldLower, "Cc: ".data ++ tra.ccStr ++ crlf)] else []
  else if fieldLower == "bcc".data then
    if !tra.bccUsers.isEmpty then [(fieldLower, "Bcc: ".data ++ tra.bccStr ++ crlf)] else []
  else if fieldLower == "message-id".data then
    [(fieldLower, "Message-ID: <".data ++ intRender email.id ++ "@".data ++
      domain ++ ">".data ++ crlf)]
  else if fieldLower == "content-type".data then
    match goSplitN3 emailContent crlf with
    | a :: b :: _ => [(fieldLower, a ++ b ++ crlf)]
    | _ => []
  else
    []

/-- The lines of a synthesized header block for a list of requested fields. -/
def headerBlockLines (email : EmailView) (tra : ParsedEmail)
    (emailContent domain : GoStr) (fields : List GoStr) : List (GoStr × GoStr) :=
  (fields.map (headerFieldLines email tra emailContent domain)).flatten

/-- The bytes of a synthesized header section: the rendered lines followed by
the terminating blank line (part_001 line 341). -/
def headerSectionContent (email : EmailView) (tra : ParsedEmail)
    (emailContent domain : GoStr) (fields : List GoStr) : GoStr :=
  ((headerBlockLines email tra emailContent domain fields).map Prod.snd).flatten ++ crlf

/-- One observable action of the FETCH writer, in emission order. -/
inductive FetchEffect where
  | created (seqNum : Int)
  | wroteUID (u : Int)
  | wroteEnvelope (env : Envelope)
  | wroteBodyStructure (bs : BodyStructure)
  | wroteSize (n : Nat)
  | wroteFlags (fs : List GoFlag)
  | wroteInternalDate (t : Int)
  | madeRead (emailId : Int) (v : Bool)
  | wroteBodySection (content : GoStr)
  | closedMessage

/-- Is this effect the mark-as-read store call? -/
def isMakeRead : FetchEffect → Bool
  | .madeRead _ _ => true
  | _ => false

/-- The mark-as-read prelude of one body-section iteration (part_001 lines
269-271): a non-peek section calls `detail.MakeRead` on the store. -/
def sectionReadEffects (email : EmailView) (sec : BodySectionReq) : List FetchEffect :=
  if !sec.peek then [FetchEffect.madeRead email.id true] else []

/-- The content written for one body-section request (part_001 lines
274-364): the branch on header fields / part path / whole message. -/
def sectionWriteEffects (email : EmailView) (tra : ParsedEmail) (domain : GoStr)
    (sec : BodySectionReq) : List FetchEffect :=
  if sec.headerFields.length > 0 || sec.specifier == PartSpecifier.headerSpec then
    [FetchEffect.wroteBodySection
      (headerSectionContent email tra tra.raw domain
        (resolveHeaderFields sec.headerFields))]
  else if sec.specifier == PartSpecifier.noneSpec ||
          sec.specifier == PartSpecifier.textSpec then
    if sec.part.length ≥ 1 then
      match tra.buildPart sec.part with
      | some partContent => [FetchEffect.wroteBodySection partContent]
      | none => [FetchEffect.wroteBodySection []]
    else
      [FetchEffect.wroteBodySection tra.raw]
  else
    []

/-- Models one iteration of the body-section loop of `write` (part_001 lines
268-365): the `MakeRead` call for a non-peek section, then the written
content. -/
def sectionEffects (email : EmailView) (tra : ParsedEmail) (domain : GoStr)
    (sec : BodySectionReq) : List FetchEffect :=
  sectionReadEffects email sec ++ sectionWriteEffects email tra domain sec

/-- Models the per-message body of `write` (part_001 lines 222-367): the
message is opened, each requested fetch item is emitted in code order, every
body-section request is processed by `sectionEffects`, and the message is
closed. -/
def writeOne (email : EmailView) (tra : ParsedEmail) (domain : GoStr)
    (options : FetchOptions) : List FetchEffect :=
  [FetchEffect.created email.serialNumber] ++
  (if options.uid then [FetchEffect.wroteUID email.ueId] else []) ++
  (if options.envelope then [FetchEffect.wroteEnvelope (buildEnvelope email tra domain)]
   else []) ++
  (match options.bodyStructure with
   | some ext => [FetchEffect.wroteBodyStructure (buildBodyStructure tra ext)]
   | none => []) ++
  (if options.rfc822Size then [FetchEffect.wroteSize tra.raw.length] else []) ++
  (if options.flags then
    [FetchEffect.wroteFlags (if email.isRead == 1 then [GoFlag.seen] else [])]
   else []) ++
  (if options.internalDate then [FetchEffect.wroteInternalDate email.createTime] else []) ++
  ((options.bodySection.map (sectionEffects email tra domain)).flatten) ++
  [FetchEffect.closedMessage]

/-- The number of mark-as-read store calls in a list of writer effects. -/
def countMakeRead (effs : List FetchEffect) : Nat :=
  effs.countP isMakeRead

/-- A `imapserver.NumKind`: sequence-number or UID addressing. -/
inductive NumKind where
  | seq
  | uid
  deriving DecidableEq, Repr

/-- The `imap.SearchOptions` fields read by the handler. -/
structure SearchOptions where
  returnMin : Bool
  returnMax : Bool

/-- The `imap.SearchData` fields populated by the handler; `all` is the list
of single-element ranges appended to the result set, in result order. -/
structure SearchData where
  uid : Bool
  all : List Int
  count : Int
  min : Int
  max : Int
  deriving DecidableEq, Repr

/-- The Go minimum-scan of the handler: start from the first element and keep
every strictly smaller later one. -/
def goScanMin (xs : List Int) : Int :=
  match xs with
  | [] => 0
  | h :: _ => xs.foldl (fun m v => if v < m then v else m) h

/-- The Go maximum-scan of the handler. -/
def goScanMax (xs : List Int) : Int :=
  match xs with
  | [] => 0
  | h :: _ => xs.foldl (fun m v => if v > m then v else m) h

/-- Models the result assembly of the session `Search` handler (part_000
lines 24-89): flatten the filtered list into single-element ranges, count it,
and compute the optional ESEARCH min/max by a linear scan. -/
def mkSearchData (kind : NumKind) (retList : List UE) (options : Option SearchOptions) :
    SearchData :=
  let vals := match kind with
    | .seq => retList.map (fun d => toUint32 d.serialNumber)
    | .uid => retList.map (fun d => toUint32 d.id)
  { uid := kind == NumKind.uid
    all := vals
    count := toUint32 retList.length
    min :=
      match options with
      | some o => if o.returnMin && retList.length > 0 then goScanMin vals else 0
      | none => 0
    max :=
      match options with
      | some o => if o.returnMax && retList.length > 0 then goScanMax vals else 0
      | none => 0 }

/-- Models the session `Search` handler (part_000 lines 14-93): run
`SearchEmails`, propagate its error if any, otherwise assemble the
`SearchData` response. -/
def searchHandler (db : DB) (store : List UE) (kind : NumKind)
    (criteria : Option SearchCriteria) (options : Option SearchOptions) :
    Except String SearchData :=
  match SearchEmails db store criteria with
  | (_, some e) => .error e
  | (retList, none) => .ok (mkSearchData kind retList options)

/-! Helper lemmas about the evaluator. -/

lemma filterByUIDSets_sublist (l : List UE) (s : List NumSet) :
    (filterByUIDSets l s).Sublist l :=
  List.filter_sublist l

lemma filterBySeqNumSets_sublist (l : List UE) (s : List NumSet) :
    (filterBySeqNumSets l s).Sublist l :=
  List.filter_sublist l

lemma filterByFlags_sublist (l : List UE) (fs nfs : List GoFlag) :
    (filterByFlags l fs nfs).Sublist l :=
  List.filter_sublist l

lemma filterWithEmailData_sublist (db : DB) (l : List UE) (f : FlatCriteria) :
    (filterWithEmailData db l f).Sublist l := by
  unfold filterWithEmailData
  split
  · exact List.Sublist.refl _
  · split
    · exact List.Sublist.refl _
    · exact List.filter_sublist _

lemma uidPass_sublist (flat : FlatCriteria) (l : List UE) :
    (uidPass flat l).Sublist l := by
  unfold uidPass; split
  · exact filterByUIDSets_sublist l _
  · exact List.Sublist.refl _

lemma seqPass_sublist (flat : FlatCriteria) (l : List UE) :
    (seqPass flat l).Sublist l := by
  unfold seqPass; split
  · exact filterBySeqNumSets_sublist l _
  · exact List.Sublist.refl _

lemma dataPass_sublist (db : DB) (flat : FlatCriteria) (l : List UE) :
    (dataPass db flat l).Sublist l := by
  unfold dataPass; split
  · exact filterWithEmailData_sublist db l _
  · exact List.Sublist.refl _

lemma flagPass_sublist (flat : FlatCriteria) (l : List UE) :
    (flagPass flat l).Sublist l := by
  unfold flagPass; split
  · exact filterByFlags_sublist l _ _
  · exact List.Sublist.refl _

lemma flatPasses_sublist (db : DB) (store : List UE) (flat : FlatCriteria) :
    (flatPasses db store flat).Sublist store :=
  ((flagPass_sublist _ _).trans
    ((dataPass_sublist _ _ _).trans
      ((seqPass_sublist _ _).trans (uidPass_sublist _ _))))

lemma applyNotListGo_sublist (db : DB) (store : List UE) :
    ∀ (ns : SCList) (l : List UE), (applyNotListGo db store l ns).Sublist l
  | .nil, l => by
    simp only [applyNotListGo]
    exact List.Sublist.refl _
  | .cons c rest, l => by
    simp only [applyNotListGo]
    exact (applyNotListGo_sublist db store rest _).trans (List.filter_sublist _)

lemma searchSome_sublist (db : DB) (store : List UE) :
    ∀ (c : SearchCriteria), (searchSome db store c).Sublist store
  | .mk flat nots ors => by
    have h5 : (applyNotListGo db store (flatPasses db store flat) nots).Sublist store :=
      (applyNotListGo_sublist db store nots _).trans (flatPasses_sublist db store flat)
    cases ors with
    | nil => simpa only [searchSome] using h5
    | cons a b rest =>
      simp only [searchSome]
      exact (List.filter_sublist _).trans h5

lemma SearchEmails_snd (db : DB) (store : List UE) (c? : Option SearchCriteria) :
    (SearchEmails db store c?).2 = none := by
  unfold SearchEmails
  split
  · rfl
  · rcases c? with _ | c
    · rfl
    · dsimp only
      split <;> rfl

lemma SearchEmails_fst_sublist (db : DB) (store : List UE) (c? : Option SearchCriteria) :
    ((SearchEmails db store c?).1).Sublist store := by
  unfold SearchEmails
  split
  · exact List.Sublist.refl _
  · rcases c? with _ | c
    · exact List.Sublist.refl _
    · dsimp only
      split
      · exact List.Sublist.refl _
      · exact searchSome_sublist db store c

lemma SearchEmails_some_fst (db : DB) (store : List UE) (c : SearchCriteria) :
    (SearchEmails db store (some c)).1 =
      if store.length = 0 then store
      else if isEmptyCriteria c then store
      else searchSome db store c := by
  unfold SearchEmails
  split
  · rfl
  · dsimp only
    split <;> rfl

lemma applyNotListGo_cons (db : DB) (store l : List UE) (c : SearchCriteria)
    (rest : SCList) :
    applyNotListGo db store l (.cons c rest) =
      applyNotListGo db store (applyNotCriteria db store l c) rest := by
  simp only [applyNotListGo, applyNotCriteria, SearchEmails_some_fst]

lemma searchSome_eq (db : DB) (store : List UE) (flat : FlatCriteria)
    (nots : SCList) (ors : SCPairList) :
    searchSome db store (.mk flat nots ors) =
      applyOrCriteria db store (applyNotListGo db store (flatPasses db store flat) nots)
        ors := by
  cases ors <;> simp only [searchSome, applyOrCriteria]

/-! Concrete objects used by witnesses and counterexamples. -/

/-- A storage oracle whose lookups always fail. -/
def dbFail : DB := ⟨fun _ => Except.error ("storage failure")⟩

/-- The all-zero criteria fields. -/
def emptyFlat : FlatCriteria := ⟨[], [], 0, 0, 0, 0, [], [], [], [], [], 0, 0⟩

/-- A read message, uid 1, sequence number 1. -/
def ue1 : UE := ⟨1, 1, 10, 1, 0⟩

/-- An unread message, uid 2, sequence number 2. -/
def ue2 : UE := ⟨2, 2, 20, 0, 0⟩

/-- The criteria matching exactly the seen messages. -/
def cSeen : SearchCriteria := .mk { emptyFlat with flag := [GoFlag.seen] } .nil .nil

/-- The criteria matching exactly the unseen messages. -/
def cUnseen : SearchCriteria := .mk { emptyFlat with notFlag := [GoFlag.seen] } .nil .nil

/-- A criteria node whose only content is two OR pairs: one matching the seen
messages, one matching the unseen messages. -/
def orNode2 : SearchCriteria :=
  .mk emptyFlat .nil (.cons cSeen cSeen (.cons cUnseen cUnseen .nil))

/-- A criteria node with every field empty. -/
def emptyCriteria : SearchCriteria := .mk emptyFlat .nil .nil

/-! Claim theorems. -/

/-- C6: for every base list and criteria tree, the evaluator's output is a
subsequence of the base list — surviving elements keep the base list's
relative order and multiplicity is never increased; no pass reorders,
duplicates, or adds elements. -/
theorem C6_evaluate_sublist (db : DB) (store : List UE) (c? : Option SearchCriteria) :
    ((SearchEmails db store c?).1).Sublist store :=
  SearchEmails_fst_sublist db store c?

/-- C10: for every mailbox snapshot and criteria tree (including arbitrarily
nested NOT/OR children) `SearchEmails` returns a nil error, so the SEARCH
handler's error-return branch is unreachable and the handler always returns a
result. -/
theorem C10_search_never_errors (db : DB) (store : List UE) (kind : NumKind)
    (criteria : Option SearchCriteria) (options : Option SearchOptions) :
    (SearchEmails db store criteria).2 = none ∧
    ∃ d, searchHandler db store kind criteria options = Except.ok d := by
  refine ⟨SearchEmails_snd db store criteria, ?_⟩
  unfold searchHandler
  have h := SearchEmails_snd db store criteria
  rcases hE : SearchEmails db store criteria with ⟨retList, err⟩
  rw [hE] at h
  simp only at h
  subst h
  exact ⟨_, rfl⟩

/-- C5: evaluating with a nil criteria node, or with a criteria node in which
every field is at its zero/empty value, returns the base list unchanged in
membership and order (and a nil error). -/
theorem C5_empty_criteria_identity (db : DB) (store : List UE)
    (c? : Option SearchCriteria)
    (h : c? = none ∨ ∃ f nots ors, c? = some (.mk f nots ors) ∧
      f.uid = [] ∧ f.seqNum = [] ∧ f.since = 0 ∧ f.before = 0 ∧
      f.sentSince = 0 ∧ f.sentBefore = 0 ∧ f.header = [] ∧ f.body = [] ∧
      f.text = [] ∧ f.flag = [] ∧ f.notFlag = [] ∧ f.larger = 0 ∧
      f.smaller = 0 ∧ nots = SCList.nil ∧ ors = SCPairList.nil) :
    SearchEmails db store c? = (store, none) := by
  rcases h with h | ⟨f, nots, ors, hc, h1, h2, h3, h4, h5, h6, h7, h8, h9,
    h10, h11, h12, h13, h14, h15⟩
  · subst h
    unfold SearchEmails
    split <;> rfl
  · subst hc h14 h15
    have hE : isEmptyCriteria (.mk f .nil .nil) = true := by
      simp [isEmptyCriteria, SearchCriteria.flat, SearchCriteria.nots,
        SearchCriteria.ors, SCList.length, SCPairList.length, isZeroTime,
        h1, h2, h3, h4, h5, h6, h7, h8, h9, h10, h11, h12, h13]
    unfold SearchEmails
    split
    · rfl
    · dsimp only
      rw [hE]
      rfl

/-- Witness for C5: the identity holds at a concrete snapshot both for a nil
criteria and for a concrete all-empty criteria node. -/
theorem C5_empty_criteria_identity_witness :
    SearchEmails dbFail [ue1, ue2] none = ([ue1, ue2], none) ∧
    SearchEmails dbFail [ue1, ue2] (some emptyCriteria) = ([ue1, ue2], none) :=
  ⟨C5_empty_criteria_identity dbFail [ue1, ue2] none (Or.inl rfl),
   C5_empty_criteria_identity dbFail [ue1, ue2] (some emptyCriteria)
     (Or.inr ⟨emptyFlat, SCList.nil, SCPairList.nil, rfl, rfl, rfl, rfl, rfl,
       rfl, rfl, rfl, rfl, rfl, rfl, rfl, rfl, rfl, rfl, rfl⟩)⟩

/-- C9: when the storage lookup behind the email-data pass fails, the pass
returns the candidate set unchanged (fail-open), and the search as a whole
still returns a result with a nil error rather than aborting. -/
theorem C9_fail_open (db : DB) (store list : List UE) (f : FlatCriteria)
    (err : String) (c? : Option SearchCriteria)
    (h : db.fetchEmails (list.map (·.emailID)) = Except.error err) :
    filterWithEmailData db list f = list ∧ (SearchEmails db store c?).2 = none := by
  constructor
  · unfold filterWithEmailData
    split
    · rfl
    · rw [h]
  · exact SearchEmails_snd db store c?

/-- Witness for C9: a concrete always-failing store leaves a concrete
candidate list unfiltered and the search still reports no error. -/
theorem C9_fail_open_witness :
    filterWithEmailData dbFail [ue1, ue2] emptyFlat = [ue1, ue2] ∧
    (SearchEmails dbFail [ue1, ue2] (some cSeen)).2 = none :=
  ⟨(C9_fail_open dbFail [ue1, ue2] [ue1, ue2] emptyFlat ("storage failure")
      (some cSeen) rfl).1,
   (C9_fail_open dbFail [ue1, ue2] [ue1, ue2] emptyFlat ("storage failure")
      (some cSeen) rfl).2⟩

/-- Membership and `List.contains` agree (decidable-equality helper). -/
lemma contains_eq_true_iff (l : List Int) (a : Int) : l.contains a = true ↔ a ∈ l := by
  simp

/-- A criteria node whose only content is one NOT child. -/
def notOnly (c : SearchCriteria) : SearchCriteria :=
  .mk emptyFlat (.cons c .nil) .nil

/-- The flat passes do nothing when every flat field is empty. -/
lemma flatPasses_emptyFlat (db : DB) (store : List UE) :
    flatPasses db store emptyFlat = store := by
  simp [flatPasses, flagPass, dataPass, seqPass, uidPass, needsEmailData,
    emptyFlat, isZeroTime]

/-- Evaluating a NOT-only node subtracts the child's matches (by unique id)
from the snapshot. -/
lemma notOnly_eval (db : DB) (store : List UE) (c : SearchCriteria) :
    (SearchEmails db store (some (notOnly c))).1 =
      store.filter (fun it =>
        !(((SearchEmails db store (some c)).1).map (·.id)).contains it.id) := by
  by_cases h0 : store.length = 0
  · have hs : store = [] := List.length_eq_zero.mp h0
    subst hs
    simp [SearchEmails]
  · have hne : (isEmptyCriteria (notOnly c) = true) = False := by
      simp [isEmptyCriteria, notOnly, SearchCriteria.nots, SCList.length]
    rw [SearchEmails_some_fst, if_neg h0, if_neg (hne ▸ not_false)]
    show searchSome db store (.mk emptyFlat (.cons c .nil) .nil) = _
    rw [searchSome_eq]
    show applyOrCriteria db store
      (applyNotListGo db store (flatPasses db store emptyFlat) (.cons c .nil))
      SCPairList.nil = _
    rw [flatPasses_emptyFlat, applyNotListGo_cons]
    show applyNotListGo db store (applyNotCriteria db store store c) SCList.nil = _
    simp only [applyNotListGo, applyNotCriteria]

/-- C7: evaluating a node whose only content is NOT(C) yields a set disjoint
from evaluate(C), and the union of the two is the base list: the NOT pass
partitions the base list against the original list (stated for snapshots with
pairwise-distinct unique ids). -/
theorem C7_not_partition (db : DB) (store : List UE) (c : SearchCriteria)
    (hnd : (store.map UE.id).Nodup) :
    (∀ x, x ∈ (SearchEmails db store (some (notOnly c))).1 →
       x ∉ (SearchEmails db store (some c)).1) ∧
    (∀ x, x ∈ store ↔
       (x ∈ (SearchEmails db store (some (notOnly c))).1 ∨
        x ∈ (SearchEmails db store (some c)).1)) := by
  have key := notOnly_eval db store c
  constructor
  · intro x hx hxm
    rw [key] at hx
    have hp := List.of_mem_filter hx
    have hxid : x.id ∈ ((SearchEmails db store (some c)).1).map UE.id :=
      List.mem_map.mpr ⟨x, hxm, rfl⟩
    rw [Bool.not_eq_true', ← Bool.not_eq_true] at hp
    exact hp ((contains_eq_true_iff _ _).mpr hxid)
  · intro x
    constructor
    · intro hx
      by_cases hmem : x.id ∈ ((SearchEmails db store (some c)).1).map UE.id
      · right
        obtain ⟨y, hym, hyid⟩ := List.mem_map.mp hmem
        have hys : y ∈ store :=
          (SearchEmails_fst_sublist db store (some c)).subset hym
        have hxy : y = x := List.inj_on_of_nodup_map hnd hys hx hyid
        exact hxy ▸ hym
      · left
        rw [key]
        refine List.mem_filter.mpr ⟨hx, ?_⟩
        simp only [Bool.not_eq_true']
        rw [← Bool.not_eq_true]
        intro hcont
        exact hmem ((contains_eq_true_iff _ _).mp hcont)
    · intro h
      rcases h with h | h
      · rw [key] at h
        exact (List.mem_filter.mp h).1
      · exact (SearchEmails_fst_sublist db store (some c)).subset h

/-- Witness for C7: the partition at a concrete two-message snapshot and the
seen-flag child criteria. -/
theorem C7_not_partition_witness :
    (∀ x, x ∈ (SearchEmails dbFail [ue1, ue2] (some (notOnly cSeen))).1 →
       x ∉ (SearchEmails dbFail [ue1, ue2] (some cSeen)).1) ∧
    (∀ x, x ∈ [ue1, ue2] ↔
       (x ∈ (SearchEmails dbFail [ue1, ue2] (some (notOnly cSeen))).1 ∨
        x ∈ (SearchEmails dbFail [ue1, ue2] (some cSeen)).1)) :=
  C7_not_partition dbFail [ue1, ue2] cSeen (by decide)

/-- The inlined recursive search of the NOT/OR passes equals `SearchEmails`
on the same snapshot. -/
lemma searchFull_eq (db : DB) (store : List UE) (c : SearchCriteria) :
    (if store.length = 0 then store
     else if isEmptyCriteria c then store
     else searchSome db store c) = (SearchEmails db store (some c)).1 :=
  (SearchEmails_some_fst db store c).symm

/-- Membership in the accumulated OR result set: an id is collected exactly
when it is a current candidate and matches either side of some pair. -/
lemma mem_collectOrUIDs (db : DB) (store : List UE) (cur : List Int) :
    ∀ (ors : SCPairList) (i : Int),
      i ∈ collectOrUIDs db store cur ors ↔
        ∃ p ∈ ors.toList,
          (i ∈ matchIDs db store p.1 ∨ i ∈ matchIDs db store p.2) ∧ i ∈ cur
  | .nil, i => by simp [collectOrUIDs, SCPairList.toList]
  | .cons a b rest, i => by
    have ih := mem_collectOrUIDs db store cur rest i
    simp only [collectOrUIDs, SCPairList.toList, List.mem_append, List.mem_filter,
      List.mem_cons, searchFull_eq, contains_eq_true_iff, ih, matchIDs]
    constructor
    · rintro ((⟨h, hc⟩ | ⟨h, hc⟩) | ⟨p, hp, hm, hc⟩)
      · exact ⟨(a, b), Or.inl rfl, Or.inl h, hc⟩
      · exact ⟨(a, b), Or.inl rfl, Or.inr h, hc⟩
      · exact ⟨p, Or.inr hp, hm, hc⟩
    · rintro ⟨p, hp | hp, hm, hc⟩
      · subst hp
        rcases hm with h | h
        · exact Or.inl (Or.inl ⟨h, hc⟩)
        · exact Or.inl (Or.inr ⟨h, hc⟩)
      · exact Or.inr ⟨p, hp, hm, hc⟩

/-- Modelled from the spec: the intersection-of-unions OR composition the
spec documents — result = intersection over the pairs of (current candidates ∩
(matchesA ∪ matchesB)), applied as repeated narrowing. -/
def orPairsIntersectionOfUnions (db : DB) (store : List UE) (cands : List UE) :
    SCPairList → List UE
  | .nil => cands
  | .cons a b rest =>
    orPairsIntersectionOfUnions db store
      (cands.filter (fun it =>
        (matchIDs db store a ++ matchIDs db store b).contains it.id)) rest

/-- Counterexample for C1: on a two-message snapshot with one OR pair matching
only the seen message and a second OR pair matching only the unseen message,
the evaluator returns both messages, while the claimed intersection-of-unions
composition returns the empty set. -/
theorem C1_counterexample :
    (SearchEmails dbFail [ue1, ue2] (some orNode2)).1 = [ue1, ue2] ∧
    orPairsIntersectionOfUnions dbFail [ue1, ue2] [ue1, ue2]
      (SCPairList.cons cSeen cSeen (SCPairList.cons cUnseen cUnseen SCPairList.nil)) =
      [] ∧
    (SearchEmails dbFail [ue1, ue2] (some orNode2)).1 ≠
      orPairsIntersectionOfUnions dbFail [ue1, ue2] [ue1, ue2]
        (SCPairList.cons cSeen cSeen (SCPairList.cons cUnseen cUnseen SCPairList.nil)) :=
  ⟨by decide, by decide, by decide⟩

/-- C1 (amended): with at least one OR pair, the OR pass keeps exactly the
current candidates whose unique id matches either side of SOME pair — the
pairs' match sets accumulate by union (candidates ∩ union-of-unions), not by
intersection of per-pair unions. -/
theorem C1_or_union_of_unions (db : DB) (store list : List UE) (ors : SCPairList)
    (h : ors ≠ SCPairList.nil) (x : UE) :
    x ∈ applyOrCriteria db store list ors ↔
      x ∈ list ∧ ∃ p ∈ ors.toList,
        x.id ∈ matchIDs db store p.1 ∨ x.id ∈ matchIDs db store p.2 := by
  cases ors with
  | nil => exact absurd rfl h
  | cons a b rest =>
    show x ∈ List.filter _ list ↔ _
    rw [List.mem_filter]
    constructor
    · rintro ⟨hx, hc⟩
      obtain ⟨p, hp, hm, _⟩ :=
        (mem_collectOrUIDs db store _ _ _).mp ((contains_eq_true_iff _ _).mp hc)
      exact ⟨hx, p, hp, hm⟩
    · rintro ⟨hx, p, hp, hm⟩
      refine ⟨hx, (contains_eq_true_iff _ _).mpr
        ((mem_collectOrUIDs db store _ _ _).mpr ⟨p, hp, hm, ?_⟩)⟩
      exact List.mem_map.mpr ⟨x, hx, rfl⟩

/-- Witness for the amended C1 at a concrete two-pair OR list. -/
theorem C1_or_union_of_unions_witness :
    ue1 ∈ applyOrCriteria dbFail [ue1, ue2] [ue1, ue2]
        (SCPairList.cons cSeen cSeen (SCPairList.cons cUnseen cUnseen SCPairList.nil)) ↔
      ue1 ∈ [ue1, ue2] ∧
      ∃ p ∈ (SCPairList.cons cSeen cSeen
          (SCPairList.cons cUnseen cUnseen SCPairList.nil)).toList,
        ue1.id ∈ matchIDs dbFail [ue1, ue2] p.1 ∨
        ue1.id ∈ matchIDs dbFail [ue1, ue2] p.2 :=
  C1_or_union_of_unions dbFail [ue1, ue2] [ue1, ue2]
    (SCPairList.cons cSeen cSeen (SCPairList.cons cUnseen cUnseen SCPairList.nil))
    (fun hcontra => nomatch hcontra) ue1

lemma secondsPerDay_pos : (0 : Int) < secondsPerDay := by norm_num [secondsPerDay]

lemma trunc_le_self (t : Int) : truncateToDate t ≤ t := by
  unfold truncateToDate
  exact Int.ediv_mul_le t (by norm_num [secondsPerDay])

/-- Comparing an instant against a truncated bound is the same as comparing
the two truncations (since the bound is a day start). -/
lemma le_trunc_iff (s t : Int) :
    truncateToDate s ≤ t ↔ truncateToDate s ≤ truncateToDate t := by
  unfold truncateToDate
  rw [← Int.le_ediv_iff_mul_le secondsPerDay_pos,
    mul_le_mul_right secondsPerDay_pos]
  exact Iff.rfl

/-- Being strictly before a truncated bound is the same as the truncations
comparing strictly. -/
lemma lt_trunc_iff (t b : Int) :
    t < truncateToDate b ↔ truncateToDate t < truncateToDate b := by
  unfold truncateToDate
  rw [← Int.ediv_lt_iff_lt_mul secondsPerDay_pos,
    mul_lt_mul_right secondsPerDay_pos]
  exact Iff.rfl

/-- A criteria with only the internal-since date set. -/
def sinceOnly (s : Int) : FlatCriteria := { emptyFlat with since := s }

/-- A criteria with only the internal-before date set. -/
def beforeOnly (b : Int) : FlatCriteria := { emptyFlat with before := b }

/-- A criteria with only the sent-since date set. -/
def sentSinceOnly (s : Int) : FlatCriteria := { emptyFlat with sentSince := s }

/-- A criteria with only the sent-before date set. -/
def sentBeforeOnly (b : Int) : FlatCriteria := { emptyFlat with sentBefore := b }

/-- C8: all four date filters compare at calendar-date granularity (the
comparison is equivalent to comparing both instants truncated to their day),
"since" being inclusive and "before" strictly earlier; in particular a message
whose internal date falls on exactly the since day passes the since filter,
and one falling on exactly the before day fails the before filter. -/
theorem C8_date_granularity (e : Email) (s b : Int) (hs : s ≠ 0) (hb : b ≠ 0) :
    (matchesEmailCriteria e (sinceOnly s) = true ↔
      truncateToDate s ≤ truncateToDate e.createTime) ∧
    (matchesEmailCriteria e (beforeOnly b) = true ↔
      truncateToDate e.createTime < truncateToDate b) ∧
    (matchesEmailCriteria e (sentSinceOnly s) = true ↔
      truncateToDate s ≤ truncateToDate e.sendDate) ∧
    (matchesEmailCriteria e (sentBeforeOnly b) = true ↔
      truncateToDate e.sendDate < truncateToDate b) ∧
    (truncateToDate e.createTime = truncateToDate s →
      matchesEmailCriteria e (sinceOnly s) = true) ∧
    (truncateToDate e.createTime = truncateToDate b →
      matchesEmailCriteria e (beforeOnly b) = false) := by
  have h1 : matchesEmailCriteria e (sinceOnly s) =
      !decide (e.createTime < truncateToDate s) := by
    simp [matchesEmailCriteria, sinceOnly, emptyFlat, isZeroTime, beq_iff_eq, hs]
  have h2 : matchesEmailCriteria e (beforeOnly b) =
      decide (e.createTime < truncateToDate b) := by
    simp [matchesEmailCriteria, beforeOnly, emptyFlat, isZeroTime, beq_iff_eq, hb]
  have h3 : matchesEmailCriteria e (sentSinceOnly s) =
      !decide (e.sendDate < truncateToDate s) := by
    simp [matchesEmailCriteria, sentSinceOnly, emptyFlat, isZeroTime, beq_iff_eq, hs]
  have h4 : matchesEmailCriteria e (sentBeforeOnly b) =
      decide (e.sendDate < truncateToDate b) := by
    simp [matchesEmailCriteria, sentBeforeOnly, emptyFlat, isZeroTime, beq_iff_eq, hb]
  refine ⟨?_, ?_, ?_, ?_, ?_, ?_⟩
  · rw [h1]
    simp only [Bool.not_eq_true', decide_eq_false_iff_not, not_lt]
    exact le_trunc_iff s e.createTime
  · rw [h2]
    simp only [decide_eq_true_eq]
    exact lt_trunc_iff e.createTime b
  · rw [h3]
    simp only [Bool.not_eq_true', decide_eq_false_iff_not, not_lt]
    exact le_trunc_iff s e.sendDate
  · rw [h4]
    simp only [decide_eq_true_eq]
    exact lt_trunc_iff e.sendDate b
  · intro heq
    rw [h1]
    simp only [Bool.not_eq_true', decide_eq_false_iff_not, not_lt]
    exact heq ▸ trunc_le_self e.createTime
  · intro heq
    rw [h2]
    simp only [decide_eq_false_iff_not, not_lt]
    exact heq ▸ trunc_le_self e.createTime

/-- A concrete email whose internal and sent dates fall 100 seconds into
calendar day 3. -/
def email0 : Email :=
  ⟨10, 86400 * 3 + 100, 86400 * 3 + 100, 500, [], [], [], [], [], [], [], [],
   false, [], false, []⟩

/-- Witness for C8: a message dated on exactly the since day passes the since
filter, and dated on exactly the before day fails the before filter, at
concrete instants with different times of day. -/
theorem C8_date_granularity_witness :
    matchesEmailCriteria email0 (sinceOnly (86400 * 3 + 50)) = true ∧
    matchesEmailCriteria email0 (beforeOnly (86400 * 3 + 50)) = false :=
  ⟨(C8_date_granularity email0 (86400 * 3 + 50) (86400 * 3 + 50)
      (by decide) (by decide)).2.2.2.2.1 (by decide),
   (C8_date_granularity email0 (86400 * 3 + 50) (86400 * 3 + 50)
      (by decide) (by decide)).2.2.2.2.2 (by decide)⟩

/-! C2: counting mark-as-read calls in one FETCH writer invocation. -/

lemma countP_sectionWriteEffects (ev : EmailView) (tra : ParsedEmail) (domain : GoStr)
    (sec : BodySectionReq) :
    List.countP isMakeRead (sectionWriteEffects ev tra domain sec) = 0 := by
  unfold sectionWriteEffects
  split
  · simp [isMakeRead]
  · split
    · split
      · split <;> simp [isMakeRead]
      · simp [isMakeRead]
    · simp

lemma countMakeRead_sectionEffects (ev : EmailView) (tra : ParsedEmail) (domain : GoStr)
    (sec : BodySectionReq) :
    List.countP isMakeRead (sectionEffects ev tra domain sec) =
      if sec.peek then 0 else 1 := by
  unfold sectionEffects sectionReadEffects
  rw [List.countP_append, countP_sectionWriteEffects]
  cases hp : sec.peek <;> simp [isMakeRead]

lemma countMakeRead_sections (ev : EmailView) (tra : ParsedEmail) (domain : GoStr) :
    ∀ l : List BodySectionReq,
      List.countP isMakeRead ((l.map (sectionEffects ev tra domain)).flatten) =
        (l.filter (fun sec => !sec.peek)).length
  | [] => by simp
  | s :: rest => by
    simp only [List.map_cons, List.flatten_cons, List.countP_append,
      countMakeRead_sections ev tra domain rest,
      countMakeRead_sectionEffects ev tra domain s]
    cases hp : s.peek
    · simp [hp]
      omega
    · simp [hp]

/-- C2 (amended): in one FETCH writer invocation for one message, the
mark-as-read store call is made once per NON-PEEK BODY-SECTION REQUEST — k
non-peek sections produce k calls, not one call per message. -/
theorem C2_makeread_per_section (ev : EmailView) (tra : ParsedEmail) (domain : GoStr)
    (opts : FetchOptions) :
    countMakeRead (writeOne ev tra domain opts) =
      (opts.bodySection.filter (fun sec => !sec.peek)).length := by
  unfold countMakeRead writeOne
  simp only [List.countP_append]
  rw [countMakeRead_sections]
  have h1 : List.countP isMakeRead [FetchEffect.created ev.serialNumber] = 0 := by
    simp [isMakeRead]
  have h2 : List.countP isMakeRead
      (if opts.uid then [FetchEffect.wroteUID ev.ueId] else []) = 0 := by
    split <;> simp [isMakeRead]
  have h3 : List.countP isMakeRead
      (if opts.envelope then [FetchEffect.wroteEnvelope (buildEnvelope ev tra domain)]
       else []) = 0 := by
    split <;> simp [isMakeRead]
  have h4 : List.countP isMakeRead
      (match opts.bodyStructure with
       | some ext => [FetchEffect.wroteBodyStructure (buildBodyStructure tra ext)]
       | none => []) = 0 := by
    split <;> simp [isMakeRead]
  have h5 : List.countP isMakeRead
      (if opts.rfc822Size then [FetchEffect.wroteSize tra.raw.length] else []) = 0 := by
    split <;> simp [isMakeRead]
  have h6 : List.countP isMakeRead
      (if opts.flags then
        [FetchEffect.wroteFlags (if ev.isRead == 1 then [GoFlag.seen] else [])]
       else []) = 0 := by
    split <;> simp [isMakeRead]
  have h7 : List.countP isMakeRead
      (if opts.internalDate then [FetchEffect.wroteInternalDate ev.createTime] else []) =
      0 := by
    split <;> simp [isMakeRead]
  have h8 : List.countP isMakeRead [FetchEffect.closedMessage] = 0 := by
    simp [isMakeRead]
  omega

/-- A non-peek whole-message body-section request. -/
def secNoPeek : BodySectionReq := ⟨false, [], PartSpecifier.noneSpec, []⟩

/-- A minimal parsed-message view with raw content and no parts. -/
def tra0 : ParsedEmail :=
  ⟨none, [], [], [], [], [], [], [], [], [], [], "x".data, fun _ => none⟩

/-- A minimal response-data view. -/
def ev0 : EmailView := ⟨11, 7, 1, 0, 0, [], [], []⟩

/-- A FETCH options value requesting the same message content through two
non-peek body sections and nothing else. -/
def opts2 : FetchOptions := ⟨false, false, none, false, false, false, [secNoPeek, secNoPeek]⟩

/-- Counterexample for C2: a FETCH of one message with two overlapping
non-peek body sections invokes the mark-as-read store call twice, not exactly
once. -/
theorem C2_counterexample :
    countMakeRead (writeOne ev0 tra0 [] opts2) = 2 ∧
    countMakeRead (writeOne ev0 tra0 [] opts2) ≠ 1 :=
  ⟨by decide, by decide⟩

/-! C3: the mixed wrapper around the alternative part. -/

/-- Counterexample for C3: for a parsed message with zero attachments the
synthesized top-level structure is a "mixed" multipart (wrapping the
alternative part), not the alternative part standing alone. -/
theorem C3_counterexample :
    tra0.attachments = [] ∧
    topSubtype (buildBodyStructure tra0 false) = "mixed".data ∧
    topSubtype (buildBodyStructure tra0 false) ≠ "alternative".data :=
  ⟨rfl, by decide, by decide⟩

/-- C3 (amended): the "mixed" wrapper is applied unconditionally — for a
message with zero attachments the result is a mixed multipart whose single
child is the alternative part (which itself always has at least one child);
the alternative part never stands alone at top level. -/
theorem C3_mixed_always_wraps (tra : ParsedEmail) (ext : Bool)
    (h : tra.attachments = []) :
    buildBodyStructure tra ext =
      BodyStructure.multi ("mixed".data) [altPartOf tra] ext ∧
    ∃ kids, altPartOf tra = BodyStructure.multi ("alternative".data) kids true ∧
      kids ≠ [] := by
  constructor
  · unfold buildBodyStructure bsMixedWithAttachments
    rw [h]
    rfl
  · unfold altPartOf bsAlternative
    refine ⟨_, rfl, ?_⟩
    split
    · simp
    · simp_all [List.isEmpty_iff]

/-- Witness for the amended C3 at the concrete attachment-free message. -/
theorem C3_mixed_always_wraps_witness :
    buildBodyStructure tra0 false =
      BodyStructure.multi ("mixed".data) [altPartOf tra0] false ∧
    ∃ kids, altPartOf tra0 = BodyStructure.multi ("alternative".data) kids true ∧
      kids ≠ [] :=
  C3_mixed_always_wraps tra0 false rfl

/-! C4: the synthesized header block for a field-less header request. -/

lemma headerFieldLines_date (ev : EmailView) (tra : ParsedEmail) (ec d : GoStr) :
    headerFieldLines ev tra ec d ['d', 'a', 't', 'e'] =
      [("date".data, "Date: ".data ++ formatRFC1123Z ev.createTime ++ crlf)] := rfl

lemma headerFieldLines_subject (ev : EmailView) (tra : ParsedEmail) (ec d : GoStr) :
    headerFieldLines ev tra ec d ['s', 'u', 'b', 'j', 'e', 'c', 't'] =
      [("subject".data, "Subject: ".data ++ qEncode ev.subject ++ crlf)] := rfl

lemma headerFieldLines_from (ev : EmailView) (tra : ParsedEmail) (ec d : GoStr) :
    headerFieldLines ev tra ec d ['f', 'r', 'o', 'm'] =
      (if !ev.fromName.isEmpty then
        [("from".data, "From: ".data ++ qEncode ev.fromName ++ " <".data ++
          ev.fromAddress ++ ">".data ++ crlf)]
      else
        [("from".data, "From: ".data ++ ev.fromAddress ++ crlf)]) := rfl

lemma headerFieldLines_to (ev : EmailView) (tra : ParsedEmail) (ec d : GoStr) :
    headerFieldLines ev tra ec d ['t', 'o'] =
      (if !tra.toStr.isEmpty then [("to".data, "To: ".data ++ tra.toStr ++ crlf)]
       else []) := rfl

lemma headerFieldLines_cc (ev : EmailView) (tra : ParsedEmail) (ec d : GoStr) :
    headerFieldLines ev tra ec d ['c', 'c'] =
      (if !tra.ccUsers.isEmpty then [("cc".data, "Cc: ".data ++ tra.ccStr ++ crlf)]
       else []) := rfl

lemma headerFieldLines_messageId (ev : EmailView) (tra : ParsedEmail) (ec d : GoStr) :
    headerFieldLines ev tra ec d ['m', 'e', 's', 's', 'a', 'g', 'e', '-', 'i', 'd'] =
      [("message-id".data, "Message-ID: <".data ++ intRender ev.id ++ "@".data ++
        d ++ ">".data ++ crlf)] := rfl

lemma headerFieldLines_contentType (ev : EmailView) (tra : ParsedEmail) (ec d : GoStr) :
    headerFieldLines ev tra ec d ['c', 'o', 'n', 't', 'e', 'n', 't', '-', 't', 'y', 'p', 'e'] =
      (match goSplitN3 ec crlf with
       | a :: b :: _ => [("content-type".data, a ++ b ++ crlf)]
       | _ => []) := rfl

/-- C4 (amended): a header-section request for "header" with no explicit
field list emits exactly the SEVEN recognized default fields — date, subject,
from, to, cc, message-id, content-type — in that order, each subject to its
presence rule (to: non-empty recipient string; cc: non-empty cc list;
content-type: a CRLF in the serialized message), and the block is the emitted
lines followed by a terminating blank line.  Sender, reply-to and bcc are not
in the default list. -/
theorem C4_default_header_fields (ev : EmailView) (tra : ParsedEmail)
    (emailContent domain : GoStr) :
    (headerBlockLines ev tra emailContent domain (resolveHeaderFields [])).map
        Prod.fst =
      ["date".data, "subject".data, "from".data]
        ++ (if tra.toStr.isEmpty then [] else ["to".data])
        ++ (if tra.ccUsers.isEmpty then [] else ["cc".data])
        ++ ["message-id".data]
        ++ (match goSplitN3 emailContent crlf with
            | _ :: _ :: _ => ["content-type".data]
            | _ => []) ∧
    headerSectionContent ev tra emailContent domain (resolveHeaderFields []) =
      ((headerBlockLines ev tra emailContent domain
          (resolveHeaderFields [])).map Prod.snd).flatten ++ crlf := by
  refine ⟨?_, rfl⟩
  show (headerBlockLines ev tra emailContent domain defaultHeaderFields).map
      Prod.fst = _
  unfold headerBlockLines defaultHeaderFields
  simp only [List.map_cons, List.map_nil, List.flatten_cons, List.flatten_nil,
    headerFieldLines_date, headerFieldLines_subject, headerFieldLines_from,
    headerFieldLines_to, headerFieldLines_cc, headerFieldLines_messageId,
    headerFieldLines_contentType]
  cases hf : ev.fromName.isEmpty <;>
    cases ht : tra.toStr.isEmpty <;>
      cases hc : tra.ccUsers.isEmpty <;>
        rcases hct : goSplitN3 emailContent crlf with _ | ⟨a, _ | ⟨b, rest⟩⟩ <;>
          simp [hf, ht, hc, hct, headerFieldLines_date, headerFieldLines_subject,
            headerFieldLines_from, headerFieldLines_to, headerFieldLines_cc,
            headerFieldLines_messageId, headerFieldLines_contentType]

/-- A concrete user for the C4 counterexample. -/
def puser1 : PUser := ⟨"Bob".data, "bob@x.com".data⟩

/-- A concrete parsed message on which every one of the ten recognized header
fields could be emitted: sender, reply-to, to, cc and bcc data are all
present, and the raw serialization contains CRLF-separated lines. -/
def tra1 : ParsedEmail :=
  ⟨some puser1, [puser1], [puser1], [puser1], [puser1],
   "bob@x.com".data, "bob@x.com".data, "bob@x.com".data, [], [], [],
   ("Content-Type: text/plain;\r\n charset=utf-8\r\nBODY").data,
   fun _ => none⟩

/-- A concrete response-data view with subject, from-name and from-address. -/
def ev1 : EmailView := ⟨11, 7, 1, 0, 0, "Hi".data, "A".data, "a@b.com".data⟩

/-- Counterexample for C4: on a message where all ten recognized fields have
data, the field-less header request emits only seven fields — sender,
reply-to and bcc are absent from the synthesized block. -/
theorem C4_counterexample :
    (headerBlockLines ev1 tra1 tra1.raw ("dom".data) (resolveHeaderFields [])).map
        Prod.fst =
      ["date".data, "subject".data, "from".data, "to".data, "cc".data,
       "message-id".data, "content-type".data] ∧
    "sender".data ∉
      (headerBlockLines ev1 tra1 tra1.raw ("dom".data) (resolveHeaderFields [])).map
        Prod.fst ∧
    "reply-to".data ∉
      (headerBlockLines ev1 tra1 tra1.raw ("dom".data) (resolveHeaderFields [])).map
        Prod.fst ∧
    "bcc".data ∉
      (headerBlockLines ev1 tra1 tra1.raw ("dom".data) (resolveHeaderFields [])).map
        Prod.fst :=
  ⟨by decide, by decide, by decide, by decide⟩
